import Mathlib

/-!
Verification of the NL2SQL workflow core of this repository (backend/agents/nl2sql_workflow
plus backend/database), as a shallow embedding in Lean 4.

The embedding translates, definition by definition:
  * `models.py`            — `WorkflowMessage`, `RetryContext`, `ExecutionResult`, `NL2SQLOutput`,
                             `SQLGenerationResponse`, `SchemaMappingResponse`, `NL2SQLInput`;
  * `executors/errors.py`  — `handle_syntax_error`, `handle_semantic_error`,
                             `handle_execution_issue`, `_create_error_output`;
  * `executors/sql_reviewer.py`     — `sql_reviewer`, `_terminate_with_error`;
  * `executors/sql_generation.py`   — the post-LLM phase of `sql_generation`
                             (confidence gate, query execution, exception dispatch);
  * `executors/sql_execution.py`    — the post-parse phase of `parse_sql_generation`;
  * `executors/schema_selection.py` — the pre-LLM catalog narrowing and the post-LLM
                             emission of `schema_understanding`;
  * `executors/initialization.py`   — the initial message of `initialize_context`;
  * `database/spider_utils.py`      — the signature of `SpiderDatabase.execute_query`
                             and Python keyword-argument binding for its call sites;
  * `database/schema_cache.py`      — `load_m_schema` under `lru_cache(maxsize=1)`.

LLM calls and the SQLite engine are opaque boundaries: they appear as explicitly
quantified parameters (a parsed response, an engine behaviour `impl`), never as
assumptions about their content.  Python floats (confidence, timings) are modelled
as rationals; Python `dict`s built by `dict(zip(columns, row))` as association lists.
-/

namespace Nl2Sql

/-- Python `pat in hay` on strings: `pat` occurs as a contiguous substring of `hay`. -/
def strContains (hay pat : String) : Bool :=
  decide (pat.data <:+: hay.data)

/-- Python `s.lower()` on the ASCII range (every engine message and keyword compared in
the source is ASCII), mapping character by character. -/
def strToLower (s : String) : String :=
  String.mk (s.data.map Char.toLower)

/-- Python `s or default` for an optional string: `None` and `""` are falsy. -/
def pyOrOptStr (s : Option String) (dflt : String) : String :=
  match s with
  | some v => if v = "" then dflt else v
  | none => dflt

/-- Python `s or default` for a plain string: `""` is falsy. -/
def pyOrStr (s : String) (dflt : String) : String :=
  if s = "" then dflt else s

/-- Python `str(x)` on an optional string: `None` prints as `"None"`. -/
def pyStrOfOption : Option String → String
  | some s => s
  | none => "None"

/-- Python `repr`/f-string rendering of a numeric value; the exact digits of a float
are irrelevant to every property proved here, only the surrounding text is. -/
def pyNumRepr (q : Rat) : String :=
  toString q

/-- The `status` literal of `WorkflowMessage` (`models.py`, lines 91-100). -/
inductive Status
  | Init
  | SchemaSelected
  | SQLGenerated
  | Success
  | SyntaxError
  | SemanticError
  | EmptyResult
  | Timeout
deriving DecidableEq, Repr

/-- The Python string value of a status literal (statuses are plain strings in the source). -/
def Status.pyString : Status → String
  | .Init => "Init"
  | .SchemaSelected => "SchemaSelected"
  | .SQLGenerated => "SQLGenerated"
  | .Success => "Success"
  | .SyntaxError => "SyntaxError"
  | .SemanticError => "SemanticError"
  | .EmptyResult => "EmptyResult"
  | .Timeout => "Timeout"

/-- A SQLite cell value as it reaches the executors. -/
inductive SqlValue
  | intVal (i : Int)
  | textVal (s : String)
  | nullVal
deriving DecidableEq, Repr

/-- One result row after `dict(zip(columns, row))`: column name paired with value. -/
abbrev Row := List (String × SqlValue)

/-- `RetryContext` (`models.py`, lines 189-214): two bounded counters with their maxima. -/
structure RetryContext where
  syntax_retry_count : Nat := 0
  semantic_retry_count : Nat := 0
  max_syntax_retries : Nat := 2
  max_semantic_retries : Nat := 2
deriving DecidableEq, Repr

/-- `RetryContext.can_retry_syntax`: strictly below the syntax maximum. -/
def RetryContext.canRetrySyntax (rc : RetryContext) : Bool :=
  rc.syntax_retry_count < rc.max_syntax_retries

/-- `RetryContext.can_retry_semantic`: strictly below the semantic maximum. -/
def RetryContext.canRetrySemantic (rc : RetryContext) : Bool :=
  rc.semantic_retry_count < rc.max_semantic_retries

/-- `RetryContext.increment_syntax`. -/
def RetryContext.incrementSyntax (rc : RetryContext) : RetryContext :=
  { rc with syntax_retry_count := rc.syntax_retry_count + 1 }

/-- `RetryContext.increment_semantic`. -/
def RetryContext.incrementSemantic (rc : RetryContext) : RetryContext :=
  { rc with semantic_retry_count := rc.semantic_retry_count + 1 }

/-- `WorkflowMessage` (`models.py`, lines 64-154); defaults follow the pydantic field defaults. -/
structure WorkflowMessage where
  question : String
  database : String := ""
  sql : Option String := none
  status : Status
  result_rows : Option (List Row) := none
  error_message : Option String := none
  retry_context : RetryContext := {}
  confidence : Option Rat := none
  reasoning : Option String := none
  selected_tables : Option (List String) := none
  schema_id : Option String := none
  execution_time_ms : Rat := 0
  row_count : Nat := 0
deriving DecidableEq, Repr

/-- `ExecutionResult` (`models.py`, lines 160-175), the message type of `parse_sql_generation`. -/
structure ExecutionResult where
  status : Status
  sql : String
  database : String
  error_message : Option String := none
  result_rows : Option (List Row) := none
  execution_time_ms : Rat := 0
  row_count : Nat := 0
deriving DecidableEq, Repr

/-- `NL2SQLInput` (`models.py`, lines 15-22). -/
structure NL2SQLInput where
  question : String
  selected_database : Option String := none
  selected_tables : Option (List String) := none
  return_natural_language : Bool := false
deriving DecidableEq, Repr

/-- `SQLGenerationResponse` (`models.py`, lines 228-233); confidence is a float in 0-100. -/
structure SQLGenerationResponse where
  sql : String
  reasoning : String
  confidence : Rat
deriving DecidableEq, Repr

/-- `SchemaMappingResponse` (`models.py`, lines 220-225). -/
structure SchemaMappingResponse where
  database : String
  tables : List String
  reasoning : String
deriving DecidableEq, Repr

/-- The `execution_result` dict of `NL2SQLOutput`, in the three shapes the source builds:
the error dict of `_create_error_output` / `_terminate_with_error`, the issue dict of
`handle_execution_issue`, and the success dict of the aggregator. -/
inductive ExecResultDict
  | errorDict (error : Option String) (error_type : String)
      (syntax_retry_count semantic_retry_count : Nat)
  | issueDict (error : Option String) (status : Status)
  | successDict (rows : Option (List Row)) (row_count : Nat) (execution_time_ms : Rat)
deriving DecidableEq, Repr

/-- `NL2SQLOutput` (`models.py`, lines 25-38); `reasoning_evaluation` is an opaque dict. -/
structure NL2SQLOutput where
  sql : String
  database : String
  execution_result : Option ExecResultDict := none
  natural_language_response : Option String := none
  reasoning_evaluation : Option (List (String × String)) := none
deriving DecidableEq, Repr

/-- What an executor body does with its context: send a message (optionally with an
explicit `target_id`), yield a terminal output, or raise. -/
inductive ExecutorAction
  | send (msg : WorkflowMessage) (target : Option String)
  | output (out : NL2SQLOutput)
  | raiseError (msg : String)
deriving DecidableEq, Repr

/-- `_create_error_output` (`errors.py`, lines 35-48). -/
def create_error_output (message : WorkflowMessage) (error_type : String) : NL2SQLOutput :=
  { sql := pyOrOptStr message.sql "-- Error: SQL not generated"
    database := pyOrStr message.database "unknown"
    execution_result := some (.errorDict message.error_message error_type
      message.retry_context.syntax_retry_count message.retry_context.semantic_retry_count)
    natural_language_response :=
      some ("❌ " ++ error_type ++ ": " ++ pyStrOfOption message.error_message)
    reasoning_evaluation := none }

/-- `handle_syntax_error` (`errors.py`, lines 56-111).  The retry message is sent with no
explicit target; the workflow edge (documented in the docstring) loops it to `sql_generation`. -/
def handle_syntax_error (message : WorkflowMessage) : ExecutorAction :=
  if message.status ≠ .SyntaxError then
    .raiseError "This executor should only handle syntax errors"
  else if ¬ message.retry_context.canRetrySyntax then
    .output (create_error_output message "SQL Syntax Error")
  else
    let rc := message.retry_context.incrementSyntax
    .send
      { question := message.question
        database := message.database
        sql := message.sql
        status := .SyntaxError
        error_message := message.error_message
        retry_context := rc
        selected_tables := message.selected_tables
        schema_id := message.schema_id } none

/-- `handle_semantic_error` (`errors.py`, lines 119-180).  The retry message is sent with no
explicit target; the workflow edge (documented in the docstring and log line) loops it to
`schema_understanding`. -/
def handle_semantic_error (message : WorkflowMessage) : ExecutorAction :=
  if message.status ≠ .SemanticError then
    .raiseError "This executor should only handle semantic errors"
  else if ¬ message.retry_context.canRetrySemantic then
    .output (create_error_output message "Database Schema Error")
  else
    let rc := message.retry_context.incrementSemantic
    .send
      { question := message.question
        database := message.database
        sql := message.sql
        status := .SemanticError
        error_message := message.error_message
        retry_context := rc
        selected_tables := message.selected_tables
        schema_id := message.schema_id } none

/-- `handle_execution_issue` (`errors.py`, lines 188-221): terminal, yields an issue output. -/
def handle_execution_issue (message : WorkflowMessage) (return_nl : Bool) : ExecutorAction :=
  let nl_response : Option String :=
    if return_nl ∧ message.status = .EmptyResult then
      some ("The query returned no results. This might be because the data matching your question (\x27" ++ message.question ++ "\x27) doesn\x27t exist in the database.")
    else none
  .output
    { sql := pyOrOptStr message.sql "-- Error: SQL not generated"
      database := message.database
      execution_result := some (.issueDict message.error_message message.status)
      natural_language_response :=
        some (pyOrOptStr nl_response
          ("⚠️ " ++ message.status.pyString ++ ": " ++ pyStrOfOption message.error_message))
      reasoning_evaluation := none }

/-- `MAX_SYNTAX_RETRIES` (`sql_reviewer.py`, line 18). -/
def REVIEWER_MAX_SYNTAX_RETRIES : Nat := 2

/-- `MAX_SEMANTIC_RETRIES` (`sql_reviewer.py`, line 19). -/
def REVIEWER_MAX_SEMANTIC_RETRIES : Nat := 2

/-- `_terminate_with_error` (`sql_reviewer.py`, lines 100-131). -/
def terminate_with_error (message : WorkflowMessage) (error_type : String) : NL2SQLOutput :=
  { sql := pyOrOptStr message.sql "-- Error: SQL not generated"
    database := pyOrStr message.database "unknown"
    execution_result := some (.errorDict message.error_message error_type
      message.retry_context.syntax_retry_count message.retry_context.semantic_retry_count)
    natural_language_response :=
      some ("❌ " ++ error_type ++ ": " ++ pyStrOfOption message.error_message)
    reasoning_evaluation := none }

/-- `sql_reviewer` (`sql_reviewer.py`, lines 22-97): the reviewer of the reflection pattern.
Success is forwarded to `handle_success`; a syntax or semantic error below its limit is
sent back to `sql_generation` with the corresponding counter incremented; everything else
terminates via `_terminate_with_error`. -/
def sql_reviewer (message : WorkflowMessage) : ExecutorAction :=
  if message.status = .Success then
    .send message (some "handle_success")
  else if message.status = .SyntaxError then
    if message.retry_context.syntax_retry_count ≥ REVIEWER_MAX_SYNTAX_RETRIES then
      .output (terminate_with_error message "SyntaxError")
    else
      .send { message with retry_context := message.retry_context.incrementSyntax }
        (some "sql_generation")
  else if message.status = .SemanticError then
    if message.retry_context.semantic_retry_count ≥ REVIEWER_MAX_SEMANTIC_RETRIES then
      .output (terminate_with_error message "SemanticError")
    else
      .send { message with retry_context := message.retry_context.incrementSemantic }
        (some "sql_generation")
  else
    .output (terminate_with_error message message.status.pyString)

/-! ### Query execution boundary (`database/spider_utils.py`) -/

/-- A Python exception as the executors discriminate it: `sqlite3.OperationalError`,
other `sqlite3.Error`s, `TimeoutError`, `TypeError`, `ValueError` (raised by
`execute_query` itself for an unknown database), and anything else;
the payload is `str(e)`. -/
inductive PyExc
  | typeError (msg : String)
  | valueError (msg : String)
  | operationalError (msg : String)
  | sqliteOtherError (msg : String)
  | timeoutError (msg : String)
  | otherExc (msg : String)
deriving DecidableEq, Repr

/-- `str(e)` of an exception. -/
def PyExc.text : PyExc → String
  | .typeError m => m
  | .valueError m => m
  | .operationalError m => m
  | .sqliteOtherError m => m
  | .timeoutError m => m
  | .otherExc m => m

/-- The keyword parameters of `SpiderDatabase.execute_query`
(`spider_utils.py`, lines 114-116): `(self, db_name, query, max_rows=100)`. -/
def executeQueryParams : List String := ["db_name", "query", "max_rows"]

/-- Python keyword-argument binding: calling a function whose parameters are `params`
with an extra keyword argument raises `TypeError` before the body runs. -/
def bindPythonCall (fname : String) (params : List String) (kwargs : List String) :
    Option PyExc :=
  match kwargs.find? (fun k => !(params.contains k)) with
  | some k => some (.typeError (fname ++ "() got an unexpected keyword argument \x27" ++ k ++ "\x27"))
  | none => none

/-- Columns and raw rows as `execute_query` would return them. -/
abbrev QueryResult := List String × List (List SqlValue)

/-- The call written at `sql_generation.py` line 193 and `sql_execution.py` line 99:
`spider_db.execute_query(schema_ctx.database, sql, timeout=30.0)`.  `impl` is the body of
`execute_query` (the SQLite engine boundary, taking `db_name`, `query`, `max_rows`);
keyword binding happens first, so the body runs only if binding succeeds. -/
def execute_query_call (impl : String → String → Nat → Except PyExc QueryResult)
    (db sql : String) : Except PyExc QueryResult :=
  match bindPythonCall "execute_query" executeQueryParams ["timeout"] with
  | some e => .error e
  | none => impl db sql 100

/-- `[dict(zip(columns, row)) for row in rows]`: each raw row paired with column names. -/
def rowsToDicts (cols : List String) (rows : List (List SqlValue)) : List Row :=
  rows.map (fun r => List.zip cols r)

/-! ### `sql_generation` executor, post-LLM phase (`executors/sql_generation.py`) -/

/-- `CONFIDENCE_THRESHOLD` (`sql_generation.py`, line 155 and `sql_execution.py`, line 46). -/
def CONFIDENCE_THRESHOLD : Rat := 50

/-- The `syntax_keywords` list of `sql_generation.py`, lines 230-235. -/
def sqlGenSyntaxKeywords : List String :=
  ["syntax error", "near", "unrecognized token", "incomplete input"]

/-- `any(kw in error_msg.lower() for kw in syntax_keywords)` (`sql_generation.py`, line 236). -/
def isSyntaxKeywordMsg (errorMsg : String) : Bool :=
  sqlGenSyntaxKeywords.any (fun kw => strContains (strToLower errorMsg) kw)

/-- The semantic keyword list of `sql_execution.py`, line 139. -/
def parseSemanticKeywords : List String := ["no such table", "no such column", "ambiguous"]

/-- `any(keyword in error_msg for keyword in [...])` after `error_msg = str(e).lower()`
(`sql_execution.py`, lines 135-140). -/
def isSemanticKeywordMsg (errorMsg : String) : Bool :=
  parseSemanticKeywords.any (fun kw => strContains (strToLower errorMsg) kw)

/-- The parse-failure fallback message of `sql_generation.py`, lines 136-145 (built when
neither strict JSON parsing nor the regex extraction recovers any SQL). -/
def sqlGenerationParseFailureMessage (message : WorkflowMessage) (excText : String) :
    WorkflowMessage :=
  { question := message.question
    database := message.database
    sql := some ""
    status := .SemanticError
    error_message := some ("Failed to parse SQL generation response: " ++ excText)
    retry_context := message.retry_context
    selected_tables := message.selected_tables
    schema_id := message.schema_id }

/-- The low-confidence semantic-error message of `sql_generation.py`, lines 166-177. -/
def sqlGenerationLowConfidenceMessage (message : WorkflowMessage)
    (parsed : SQLGenerationResponse) : WorkflowMessage :=
  { question := message.question
    database := message.database
    sql := some parsed.sql
    status := .SemanticError
    error_message := some ("Low confidence (" ++ pyNumRepr parsed.confidence ++
      "%). Agent suggests schema re-analysis.")
    retry_context := message.retry_context
    selected_tables := message.selected_tables
    schema_id := message.schema_id
    confidence := some parsed.confidence
    reasoning := some parsed.reasoning }

/-- The success message of `sql_generation.py`, lines 205-218: status `Success`
regardless of the row count. -/
def sqlGenerationOkMessage (message : WorkflowMessage) (schemaDb : String)
    (parsed : SQLGenerationResponse) (cols : List String) (rows : List (List SqlValue))
    (execTimeMs : Rat) : WorkflowMessage :=
  { question := message.question
    database := schemaDb
    sql := some parsed.sql
    status := .Success
    result_rows := some (rowsToDicts cols rows)
    retry_context := message.retry_context
    selected_tables := message.selected_tables
    schema_id := message.schema_id
    confidence := some parsed.confidence
    reasoning := some parsed.reasoning
    execution_time_ms := execTimeMs
    row_count := (rowsToDicts cols rows).length }

/-- The exception dispatch of `sql_generation.py`, lines 223-315 (the `except` clauses in
source order: `sqlite3.OperationalError`, `TimeoutError`, then the bare `Exception`
fallback, which classifies everything else — including non-operational `sqlite3.Error`s,
`TypeError` and `ValueError` — as `SemanticError` with an `Unexpected error: ` prefix). -/
def sqlGenerationExcMessage (message : WorkflowMessage) (schemaDb : String)
    (parsed : SQLGenerationResponse) (execTimeMs : Rat) (e : PyExc) : WorkflowMessage :=
  match e with
  | .operationalError errorMsg =>
    if isSyntaxKeywordMsg errorMsg then
      { question := message.question
        database := schemaDb
        sql := some parsed.sql
        status := .SyntaxError
        error_message := some errorMsg
        retry_context := message.retry_context
        selected_tables := message.selected_tables
        schema_id := message.schema_id
        confidence := some parsed.confidence
        reasoning := some parsed.reasoning
        execution_time_ms := execTimeMs }
    else
      { question := message.question
        database := schemaDb
        sql := some parsed.sql
        status := .SemanticError
        error_message := some errorMsg
        retry_context := message.retry_context
        selected_tables := message.selected_tables
        schema_id := message.schema_id
        confidence := some parsed.confidence
        reasoning := some parsed.reasoning
        execution_time_ms := execTimeMs }
  | .timeoutError _ =>
    { question := message.question
      database := schemaDb
      sql := some parsed.sql
      status := .Timeout
      error_message := some "Query execution timed out"
      retry_context := message.retry_context
      selected_tables := message.selected_tables
      schema_id := message.schema_id
      confidence := some parsed.confidence
      reasoning := some parsed.reasoning
      execution_time_ms := execTimeMs }
  | e =>
    { question := message.question
      database := schemaDb
      sql := some parsed.sql
      status := .SemanticError
      error_message := some ("Unexpected error: " ++ e.text)
      retry_context := message.retry_context
      selected_tables := message.selected_tables
      schema_id := message.schema_id
      confidence := some parsed.confidence
      reasoning := some parsed.reasoning
      execution_time_ms := execTimeMs }

/-- Result of one executor step together with whether the `execute_query` call site
was reached (`executed = false` means the step returned before any execution attempt). -/
structure SqlGenStepResult where
  executed : Bool
  action : ExecutorAction
deriving DecidableEq, Repr

/-- The post-LLM phase of `sql_generation` (`sql_generation.py`, lines 149-315): the
confidence gate, then the `execute_query` call site with `timeout=30.0`, then outcome
dispatch.  Every produced message is sent with no explicit target (the workflow edge
leads to `sql_reviewer`). -/
def sql_generation_after_parse (message : WorkflowMessage) (schemaDb : String)
    (parsed : SQLGenerationResponse)
    (impl : String → String → Nat → Except PyExc QueryResult)
    (execTimeMs : Rat) : SqlGenStepResult :=
  if parsed.confidence < CONFIDENCE_THRESHOLD then
    { executed := false
      action := .send (sqlGenerationLowConfidenceMessage message parsed) none }
  else
    match execute_query_call impl schemaDb parsed.sql with
    | .ok (cols, rows) =>
      { executed := true
        action := .send (sqlGenerationOkMessage message schemaDb parsed cols rows execTimeMs) none }
    | .error e =>
      { executed := true
        action := .send (sqlGenerationExcMessage message schemaDb parsed execTimeMs e) none }

/-! ### `parse_sql_generation` executor, post-parse phase (`executors/sql_execution.py`) -/

/-- The low-confidence `ExecutionResult` of `sql_execution.py`, lines 57-64
(`database` left empty, to be filled by the error handler). -/
def parseSqlGenerationLowConfidenceResult (parsed : SQLGenerationResponse) : ExecutionResult :=
  { status := .SemanticError
    sql := parsed.sql
    database := ""
    error_message := some ("Low confidence (" ++ pyNumRepr parsed.confidence ++
      "%). Agent suggests schema re-analysis.")
    execution_time_ms := 0
    row_count := 0 }

/-- The successful-execution dispatch of `sql_execution.py`, lines 99-126: zero rows give
`EmptyResult`, otherwise `Success`. -/
def parseSqlGenerationOkResult (parsed : SQLGenerationResponse) (schemaDb : String)
    (cols : List String) (rows : List (List SqlValue)) (execTimeMs : Rat) : ExecutionResult :=
  if (rowsToDicts cols rows).isEmpty then
    { status := .EmptyResult
      sql := parsed.sql
      database := schemaDb
      result_rows := some []
      execution_time_ms := execTimeMs
      row_count := 0 }
  else
    { status := .Success
      sql := parsed.sql
      database := schemaDb
      result_rows := some (rowsToDicts cols rows)
      execution_time_ms := execTimeMs
      row_count := (rowsToDicts cols rows).length }

/-- The exception dispatch of `sql_execution.py`, lines 132-196 (the `except` clauses in
source order: `sqlite3.OperationalError` with the semantic-keyword test,
`sqlite3.Error` as `SyntaxError`, `TimeoutError` as `Timeout`, and the bare `Exception`
fallback as `SyntaxError`). -/
def parseSqlGenerationExcResult (parsed : SQLGenerationResponse) (schemaDb : String)
    (execTimeMs : Rat) (e : PyExc) : ExecutionResult :=
  match e with
  | .operationalError errorMsg =>
    { status := if isSemanticKeywordMsg errorMsg then .SemanticError else .SyntaxError
      sql := parsed.sql
      database := schemaDb
      error_message := some errorMsg
      execution_time_ms := execTimeMs }
  | .sqliteOtherError errorMsg =>
    { status := .SyntaxError
      sql := parsed.sql
      database := schemaDb
      error_message := some errorMsg
      execution_time_ms := execTimeMs }
  | .timeoutError errorMsg =>
    { status := .Timeout
      sql := parsed.sql
      database := schemaDb
      error_message := some errorMsg
      execution_time_ms := execTimeMs }
  | e =>
    { status := .SyntaxError
      sql := parsed.sql
      database := schemaDb
      error_message := some e.text
      execution_time_ms := execTimeMs }

/-- Result of the `parse_sql_generation` step: the emitted `ExecutionResult` and whether
the `execute_query` call site was reached. -/
structure ParseSqlGenStepResult where
  executed : Bool
  result : ExecutionResult
deriving DecidableEq, Repr

/-- The post-parse phase of `parse_sql_generation` (`sql_execution.py`, lines 40-199):
the confidence gate, then the `execute_query` call site with `timeout=30.0`, then
outcome dispatch. -/
def parse_sql_generation_after_parse (parsed : SQLGenerationResponse) (schemaDb : String)
    (impl : String → String → Nat → Except PyExc QueryResult)
    (execTimeMs : Rat) : ParseSqlGenStepResult :=
  if parsed.confidence < CONFIDENCE_THRESHOLD then
    { executed := false, result := parseSqlGenerationLowConfidenceResult parsed }
  else
    match execute_query_call impl schemaDb parsed.sql with
    | .ok (cols, rows) =>
      { executed := true
        result := parseSqlGenerationOkResult parsed schemaDb cols rows execTimeMs }
    | .error e =>
      { executed := true
        result := parseSqlGenerationExcResult parsed schemaDb execTimeMs e }

/-! ### `schema_understanding` executor (`executors/schema_selection.py`) -/

/-- The M-Schema catalog as the executor reads it: each database name mapped to the key
list of its `tables` mapping (column details are dropped by the simplification loop). -/
abbrev MSchemaCatalog := List (String × List String)

/-- What the pre-LLM phase of `schema_understanding` decides: whether the LLM is invoked
and which simplified catalog view goes into the prompt. -/
structure SchemaUnderstandingStep where
  llmCalled : Bool
  promptView : MSchemaCatalog
deriving DecidableEq, Repr

/-- The pre-LLM phase of `schema_understanding` (`schema_selection.py`, lines 44-95):
a truthy `message.database` found in the catalog narrows the view to that single
database's table names; otherwise the whole catalog is used.  The body is straight-line
from there to the `agent.run` call at line 95 — the LLM is invoked on every path,
whatever `message.selected_tables` holds (the tables only become prompt hints). -/
def schema_understanding_pre_llm (message : WorkflowMessage) (m_schema : MSchemaCatalog) :
    SchemaUnderstandingStep :=
  let m_schema_for_agent :=
    if message.database ≠ "" then
      match m_schema.lookup message.database with
      | some tbls => [(message.database, tbls)]
      | none => m_schema
    else
      m_schema
  { llmCalled := true, promptView := m_schema_for_agent }

/-- The post-LLM emission of `schema_understanding` (`schema_selection.py`, lines
121-166): raises unless the parsed response names a database, then emits a
`SchemaSelected` message carrying the parsed database and tables (the message model
leaves `confidence` at its default `None`). -/
def schema_understanding_emit (message : WorkflowMessage) (parsed : SchemaMappingResponse)
    (schemaId : String) : Except String WorkflowMessage :=
  if parsed.database = "" then
    .error "Agent did not select a database"
  else
    .ok
      { question := message.question
        database := parsed.database
        status := .SchemaSelected
        retry_context := message.retry_context
        selected_tables := some parsed.tables
        schema_id := some schemaId
        reasoning := some parsed.reasoning }

/-! ### `initialize_context` executor (`executors/initialization.py`) -/

/-- The initial message of `initialize_context` (`initialization.py`, lines 41-47). -/
def initialize_context_message (input_data : NL2SQLInput) : WorkflowMessage :=
  { question := input_data.question
    database := pyOrOptStr input_data.selected_database ""
    status := .Init
    retry_context := {}
    selected_tables := input_data.selected_tables }

/-! ### Schema catalog cache (`database/schema_cache.py`) -/

/-- Process state of the `lru_cache(maxsize=1)` wrapper around `load_m_schema`:
the single cache slot (holding the identity of the cached in-memory object),
a count of backing-file reads, and a supply of fresh object identities. -/
structure MSchemaCacheState where
  cachedResult : Option Nat := none
  fileReadCount : Nat := 0
  nextObjectId : Nat := 0
deriving DecidableEq, Repr

/-- The body of `load_m_schema` (`schema_cache.py`, lines 28-42): one file read producing
a fresh in-memory object, or `FileNotFoundError` when the backing file is absent. -/
def read_m_schema_file (fileExists : Bool) (s : MSchemaCacheState) :
    Except String (Nat × MSchemaCacheState) :=
  if fileExists then
    .ok (s.nextObjectId,
      { s with fileReadCount := s.fileReadCount + 1, nextObjectId := s.nextObjectId + 1 })
  else
    .error "M-Schema file not found"

/-- `load_m_schema` as called through its `@lru_cache(maxsize=1)` decorator
(`schema_cache.py`, lines 15-42): a hit returns the cached object unchanged; a miss runs
the body and fills the slot; a raised exception is not cached. -/
def load_m_schema (fileExists : Bool) (s : MSchemaCacheState) :
    Except String (Nat × MSchemaCacheState) :=
  match s.cachedResult with
  | some v => .ok (v, s)
  | none =>
    match read_m_schema_file fileExists s with
    | .ok (v, s2) => .ok (v, { s2 with cachedResult := some v })
    | .error e => .error e

/-! ### The syntax-error retry loop -/

/-- The `SyntaxError` message the n-th generation attempt produces, as
`sql_generation.py` lines 240-252 build it (engine message and generated SQL of the
attempt supplied by `attemptErr`/`attemptSql`). -/
def syntaxAttemptMessage (attemptErr attemptSql : Nat → String) (question schemaDb : String)
    (tables : Option (List String)) (sid : Option String) (conf : Rat) (reasoning : String)
    (execTimeMs : Rat) (rc : RetryContext) (n : Nat) : WorkflowMessage :=
  sqlGenerationExcMessage
    { question := question, database := schemaDb, status := .SchemaSelected,
      retry_context := rc, selected_tables := tables, schema_id := sid }
    schemaDb
    { sql := attemptSql n, reasoning := reasoning, confidence := conf }
    execTimeMs
    (.operationalError (attemptErr n))

/-- Modelled from the spec: the workflow graph wiring the syntax-error loop (SQL
generation outcome `SyntaxError` into `handle_syntax_error`, and the retry message back
into SQL generation) is built by orchestration code not present under the source tree;
this driver follows the spec's transition table in §4.5 and the `errors.py` docstrings
("loops to sql_generation").  Each iteration is one SQL-generation attempt whose outcome
is a `SyntaxError` (the premise of the retry-bound property), handled by the embedded
`handle_syntax_error`; `n` counts the attempts already made.  The guard and both branch
results coincide with `handle_syntax_error` (proved in `handle_syntax_error_cases`). -/
def runSyntaxLoop (attemptErr attemptSql : Nat → String) (question schemaDb : String)
    (tables : Option (List String)) (sid : Option String) (conf : Rat) (reasoning : String)
    (execTimeMs : Rat) (rc : RetryContext) (n : Nat) : Nat × NL2SQLOutput :=
  let gm := syntaxAttemptMessage attemptErr attemptSql question schemaDb tables sid
    conf reasoning execTimeMs rc n
  if rc.canRetrySyntax then
    runSyntaxLoop attemptErr attemptSql question schemaDb tables sid conf reasoning
      execTimeMs rc.incrementSyntax (n + 1)
  else
    (n + 1, create_error_output gm "SQL Syntax Error")
termination_by rc.max_syntax_retries - rc.syntax_retry_count
decreasing_by
  simp only [RetryContext.canRetrySyntax, decide_eq_true_eq] at *
  simp only [RetryContext.incrementSyntax]
  omega

/-! ### The messages an executor can produce (for the status-field invariant) -/

/-- The field invariant of `WorkflowMessage` claimed by the spec: `error_message` is
non-null exactly on the error statuses, and `result_rows` only on `Success`/`EmptyResult`. -/
def messageInvariant (m : WorkflowMessage) : Prop :=
  (m.error_message ≠ none ↔
    (m.status = .SyntaxError ∨ m.status = .SemanticError ∨ m.status = .Timeout)) ∧
  (m.result_rows ≠ none → m.status = .Success ∨ m.status = .EmptyResult)

/-- Closure of all `WorkflowMessage` construction sites in the executors: the initial
message, the schema-selection emission, the five outcome messages of `sql_generation`,
and the forwarding/retry messages of the two error handlers and the reviewer. -/
inductive Produced : WorkflowMessage → Prop
  | init (input_data : NL2SQLInput) :
      Produced (initialize_context_message input_data)
  | schemaSelected (m : WorkflowMessage) (parsed : SchemaMappingResponse) (sid : String)
      (out : WorkflowMessage) (h : schema_understanding_emit m parsed sid = .ok out) :
      Produced out
  | sqlGenParseFailure (m : WorkflowMessage) (excText : String) :
      Produced (sqlGenerationParseFailureMessage m excText)
  | sqlGenLowConfidence (m : WorkflowMessage) (parsed : SQLGenerationResponse) :
      Produced (sqlGenerationLowConfidenceMessage m parsed)
  | sqlGenOk (m : WorkflowMessage) (schemaDb : String) (parsed : SQLGenerationResponse)
      (cols : List String) (rows : List (List SqlValue)) (t : Rat) :
      Produced (sqlGenerationOkMessage m schemaDb parsed cols rows t)
  | sqlGenExc (m : WorkflowMessage) (schemaDb : String) (parsed : SQLGenerationResponse)
      (t : Rat) (e : PyExc) :
      Produced (sqlGenerationExcMessage m schemaDb parsed t e)
  | syntaxRetry (m out : WorkflowMessage) (tgt : Option String) (hm : Produced m)
      (h : handle_syntax_error m = .send out tgt) : Produced out
  | semanticRetry (m out : WorkflowMessage) (tgt : Option String) (hm : Produced m)
      (h : handle_semantic_error m = .send out tgt) : Produced out
  | reviewerSend (m out : WorkflowMessage) (tgt : Option String) (hm : Produced m)
      (h : sql_reviewer m = .send out tgt) : Produced out

/-! ## Helper lemmas -/

theorem strContains_append_left (s t : String) : strContains (s ++ t) s = true := by
  have h : s.data <:+: (s ++ t).data := ⟨[], t.data, by simp⟩
  simpa [strContains] using h

theorem execute_query_call_raises (impl : String → String → Nat → Except PyExc QueryResult)
    (db sqlq : String) :
    execute_query_call impl db sqlq =
      .error (.typeError "execute_query() got an unexpected keyword argument \x27timeout\x27") := by
  simp [execute_query_call, bindPythonCall, executeQueryParams]

/-! ## Claims -/

/-- C10: calling `load_m_schema` a second time in the same process returns the identical
in-memory catalog object as the first call (same object identity) and performs the
backing-file read only once: from a state with an empty cache slot, the first call reads
the file once and fills the slot, and the second call returns the same object without
touching the state at all. -/
theorem c10_load_m_schema_idempotent (s : MSchemaCacheState) (h : s.cachedResult = none) :
    load_m_schema true s = .ok (s.nextObjectId,
      { cachedResult := some s.nextObjectId, fileReadCount := s.fileReadCount + 1,
        nextObjectId := s.nextObjectId + 1 })
  ∧ load_m_schema true
      { cachedResult := some s.nextObjectId, fileReadCount := s.fileReadCount + 1,
        nextObjectId := s.nextObjectId + 1 } = .ok (s.nextObjectId,
      { cachedResult := some s.nextObjectId, fileReadCount := s.fileReadCount + 1,
        nextObjectId := s.nextObjectId + 1 })
  ∧ (MSchemaCacheState.fileReadCount
      { cachedResult := some s.nextObjectId, fileReadCount := s.fileReadCount + 1,
        nextObjectId := s.nextObjectId + 1 }) = s.fileReadCount + 1 := by
  refine ⟨?_, ?_, rfl⟩
  · simp [load_m_schema, read_m_schema_file, h]
  · simp [load_m_schema]

/-- C10 witness: the two calls at the fresh process state. -/
theorem c10_witness :
    load_m_schema true {} = .ok (0,
      { cachedResult := some 0, fileReadCount := 1, nextObjectId := 1 })
  ∧ load_m_schema true { cachedResult := some 0, fileReadCount := 1, nextObjectId := 1 } =
      .ok (0, { cachedResult := some 0, fileReadCount := 1, nextObjectId := 1 }) := by
  have h := c10_load_m_schema_idempotent {} rfl
  exact ⟨h.1, h.2.1⟩

/-- C5 counterexample: the engine error `database is locked` (a `sqlite3.OperationalError`)
contains none of the semantic indicators, so the claim requires `SyntaxError`; but
`sql_generation` classifies it `SemanticError`, because its dispatch keys on
syntax keywords instead of semantic ones. -/
theorem c5_counterexample :
    (sqlGenerationExcMessage { question := "q", status := .SchemaSelected } "db"
      { sql := "SELECT 1", reasoning := "r", confidence := 80 } 0
      (.operationalError "database is locked")).status = .SemanticError
  ∧ isSemanticKeywordMsg "database is locked" = false
  ∧ isSyntaxKeywordMsg "database is locked" = false := by
  refine ⟨?_, by decide, by decide⟩
  have h : isSyntaxKeywordMsg "database is locked" = false := by decide
  simp [sqlGenerationExcMessage, h]

/-- C5 (amended): the two executors classify engine errors by different rules.
In `parse_sql_generation`, an `OperationalError` is `SemanticError` exactly when its
lowercased message contains a `no such table` / `no such column` / `ambiguous` indicator,
and every other engine error (including non-operational `sqlite3.Error`s) is
`SyntaxError`.  In `sql_generation`, an `OperationalError` is `SyntaxError` exactly when
its lowercased message contains `syntax error` / `near` / `unrecognized token` /
`incomplete input`, `SemanticError` otherwise; a non-operational `sqlite3.Error` falls
into its bare-`Exception` fallback and is `SemanticError`. -/
theorem c5_error_classification (m : WorkflowMessage) (schemaDb : String)
    (parsed : SQLGenerationResponse) (t : Rat) (msg : String) :
    ((parseSqlGenerationExcResult parsed schemaDb t (.operationalError msg)).status =
        .SemanticError ↔ isSemanticKeywordMsg msg = true)
  ∧ ((parseSqlGenerationExcResult parsed schemaDb t (.operationalError msg)).status =
        .SyntaxError ↔ isSemanticKeywordMsg msg = false)
  ∧ (parseSqlGenerationExcResult parsed schemaDb t (.sqliteOtherError msg)).status =
        .SyntaxError
  ∧ ((sqlGenerationExcMessage m schemaDb parsed t (.operationalError msg)).status =
        .SyntaxError ↔ isSyntaxKeywordMsg msg = true)
  ∧ ((sqlGenerationExcMessage m schemaDb parsed t (.operationalError msg)).status =
        .SemanticError ↔ isSyntaxKeywordMsg msg = false)
  ∧ (sqlGenerationExcMessage m schemaDb parsed t (.sqliteOtherError msg)).status =
        .SemanticError := by
  refine ⟨?_, ?_, by simp [parseSqlGenerationExcResult], ?_, ?_,
    by simp [sqlGenerationExcMessage]⟩
  · cases hk : isSemanticKeywordMsg msg <;> simp [parseSqlGenerationExcResult, hk]
  · cases hk : isSemanticKeywordMsg msg <;> simp [parseSqlGenerationExcResult, hk]
  · cases hk : isSyntaxKeywordMsg msg <;> simp [sqlGenerationExcMessage, hk]
  · cases hk : isSyntaxKeywordMsg msg <;> simp [sqlGenerationExcMessage, hk]

/-- C6 counterexample: a `ValueError` (for example `execute_query`'s own
`Database not found` raise) is neither a recognized engine error nor a timeout; the claim
requires `SyntaxError`, but `sql_generation`'s bare-`Exception` fallback classifies it
`SemanticError`. -/
theorem c6_counterexample :
    (sqlGenerationExcMessage { question := "q", status := .SchemaSelected } "db"
      { sql := "SELECT 1", reasoning := "r", confidence := 80 } 0
      (.valueError "Database not found: db")).status = .SemanticError
  ∧ Status.SemanticError ≠ Status.SyntaxError := by
  exact ⟨rfl, by decide⟩

/-- C6 (amended): an exception that is not a recognized engine error or a timeout is
conservatively classified for a retry rather than halting the workflow, but the two
executors pick different retry loops: `parse_sql_generation`'s fallback emits
`SyntaxError` with the exception text as `error_message`, while `sql_generation`'s
fallback emits `SemanticError` with the text prefixed by `Unexpected error: `. -/
theorem c6_fallback_classification (m : WorkflowMessage) (schemaDb : String)
    (parsed : SQLGenerationResponse) (t : Rat) (msg : String) :
    (parseSqlGenerationExcResult parsed schemaDb t (.typeError msg)).status = .SyntaxError
  ∧ (parseSqlGenerationExcResult parsed schemaDb t (.valueError msg)).status = .SyntaxError
  ∧ (parseSqlGenerationExcResult parsed schemaDb t (.otherExc msg)).status = .SyntaxError
  ∧ (parseSqlGenerationExcResult parsed schemaDb t (.otherExc msg)).error_message = some msg
  ∧ (sqlGenerationExcMessage m schemaDb parsed t (.typeError msg)).status = .SemanticError
  ∧ (sqlGenerationExcMessage m schemaDb parsed t (.valueError msg)).status = .SemanticError
  ∧ (sqlGenerationExcMessage m schemaDb parsed t (.otherExc msg)).status = .SemanticError
  ∧ (sqlGenerationExcMessage m schemaDb parsed t (.otherExc msg)).error_message =
      some ("Unexpected error: " ++ msg) := by
  refine ⟨rfl, rfl, rfl, rfl, rfl, rfl, rfl, rfl⟩

/-- C4: in both executors, a SQL-generation response with confidence strictly below the
threshold of 50 is not executed (`executed = false`: the step returns before the
`execute_query` call site); the emitted message has status `SemanticError` and its
`error_message` starts with — hence contains — `Low confidence`. -/
theorem c4_confidence_gate (m : WorkflowMessage) (schemaDb : String)
    (parsed : SQLGenerationResponse)
    (impl : String → String → Nat → Except PyExc QueryResult) (t : Rat)
    (hconf : parsed.confidence < CONFIDENCE_THRESHOLD) :
    sql_generation_after_parse m schemaDb parsed impl t =
      { executed := false, action := .send (sqlGenerationLowConfidenceMessage m parsed) none }
  ∧ (sqlGenerationLowConfidenceMessage m parsed).status = .SemanticError
  ∧ (sqlGenerationLowConfidenceMessage m parsed).error_message =
      some ("Low confidence" ++ (" (" ++ pyNumRepr parsed.confidence ++
        "%). Agent suggests schema re-analysis."))
  ∧ strContains ("Low confidence" ++ (" (" ++ pyNumRepr parsed.confidence ++
      "%). Agent suggests schema re-analysis.")) "Low confidence" = true
  ∧ parse_sql_generation_after_parse parsed schemaDb impl t =
      { executed := false, result := parseSqlGenerationLowConfidenceResult parsed }
  ∧ (parseSqlGenerationLowConfidenceResult parsed).status = .SemanticError
  ∧ (parseSqlGenerationLowConfidenceResult parsed).error_message =
      some ("Low confidence" ++ (" (" ++ pyNumRepr parsed.confidence ++
        "%). Agent suggests schema re-analysis.")) := by
  refine ⟨?_, rfl, rfl, strContains_append_left "Low confidence" _, ?_, rfl, rfl⟩
  · simp [sql_generation_after_parse, hconf]
  · simp [parse_sql_generation_after_parse, hconf]

/-- C4 witness: the gate at the concrete confidence 30. -/
theorem c4_witness :
    ((30 : Rat) < CONFIDENCE_THRESHOLD)
  ∧ (sqlGenerationLowConfidenceMessage { question := "q", status := .SchemaSelected }
      { sql := "SELECT 1", reasoning := "r", confidence := 30 }).status = .SemanticError
  ∧ (sql_generation_after_parse { question := "q", status := .SchemaSelected } "db"
      { sql := "SELECT 1", reasoning := "r", confidence := 30 }
      (fun _ _ _ => .ok ([], [])) 0).executed = false := by
  have h := c4_confidence_gate { question := "q", status := .SchemaSelected } "db"
    { sql := "SELECT 1", reasoning := "r", confidence := 30 }
    (fun _ _ _ => .ok ([], [])) 0 (by decide)
  exact ⟨by decide, h.2.1, by rw [h.1]⟩

/-- C3: the call sites in both message-based executors invoke
`SpiderDatabase.execute_query` with a `timeout=30.0` keyword that its signature
`(db_name, query, max_rows=100)` does not accept, so for every engine behaviour `impl`
and every input, keyword binding raises `TypeError` before any SQL runs; whenever the
confidence gate passes (so the call site is reached), the `TypeError` lands in the
bare-`Exception` handler, and the attempt is reported as `SemanticError` in
`sql_generation` and `SyntaxError` in `parse_sql_generation` — never `Success`,
`EmptyResult` or `Timeout`. -/
theorem c3_timeout_kwarg_typeerror
    (impl : String → String → Nat → Except PyExc QueryResult) (db sqlq : String)
    (m : WorkflowMessage) (schemaDb : String) (parsed : SQLGenerationResponse) (t : Rat)
    (hconf : ¬ parsed.confidence < CONFIDENCE_THRESHOLD) :
    execute_query_call impl db sqlq =
      .error (.typeError "execute_query() got an unexpected keyword argument \x27timeout\x27")
  ∧ sql_generation_after_parse m schemaDb parsed impl t =
      { executed := true
        action := .send (sqlGenerationExcMessage m schemaDb parsed t
          (.typeError "execute_query() got an unexpected keyword argument \x27timeout\x27")) none }
  ∧ (sqlGenerationExcMessage m schemaDb parsed t
      (.typeError "execute_query() got an unexpected keyword argument \x27timeout\x27")).status =
      .SemanticError
  ∧ parse_sql_generation_after_parse parsed schemaDb impl t =
      { executed := true
        result := parseSqlGenerationExcResult parsed schemaDb t
          (.typeError "execute_query() got an unexpected keyword argument \x27timeout\x27") }
  ∧ (parseSqlGenerationExcResult parsed schemaDb t
      (.typeError "execute_query() got an unexpected keyword argument \x27timeout\x27")).status =
      .SyntaxError := by
  refine ⟨execute_query_call_raises impl db sqlq, ?_, rfl, ?_, rfl⟩
  · simp [sql_generation_after_parse, hconf, execute_query_call_raises]
  · simp [parse_sql_generation_after_parse, hconf, execute_query_call_raises]

/-- C3 witness: the `TypeError` and both classifications at a concrete input. -/
theorem c3_witness :
    (¬ (80 : Rat) < CONFIDENCE_THRESHOLD)
  ∧ execute_query_call (fun _ _ _ => .ok (["cnt"], [[SqlValue.intVal 6]])) "concert_singer"
      "SELECT count(*) FROM singer" =
      .error (.typeError "execute_query() got an unexpected keyword argument \x27timeout\x27")
  ∧ (sqlGenerationExcMessage { question := "q", status := .SchemaSelected } "concert_singer"
      { sql := "SELECT count(*) FROM singer", reasoning := "r", confidence := 80 } 0
      (.typeError "execute_query() got an unexpected keyword argument \x27timeout\x27")).status =
      .SemanticError := by
  have h := c3_timeout_kwarg_typeerror (fun _ _ _ => .ok (["cnt"], [[SqlValue.intVal 6]]))
    "concert_singer" "SELECT count(*) FROM singer"
    { question := "q", status := .SchemaSelected } "concert_singer"
    { sql := "SELECT count(*) FROM singer", reasoning := "r", confidence := 80 } 0 (by decide)
  exact ⟨by decide, h.1, h.2.2.1⟩

/-- C7 counterexample: a successful execution with zero rows in `sql_generation`
(`sql_generation.py`, lines 197-218) is emitted as `Success` with empty `result_rows`
and `row_count = 0`: that executor has no `EmptyResult` branch, contradicting the
claim's "never a Success status with an empty result set". -/
theorem c7_counterexample :
    (sqlGenerationOkMessage { question := "q", status := .SchemaSelected } "db"
      { sql := "SELECT name FROM singer WHERE age > 200", reasoning := "r", confidence := 80 }
      ["name"] [] 0).status = .Success
  ∧ (sqlGenerationOkMessage { question := "q", status := .SchemaSelected } "db"
      { sql := "SELECT name FROM singer WHERE age > 200", reasoning := "r", confidence := 80 }
      ["name"] [] 0).result_rows = some []
  ∧ (sqlGenerationOkMessage { question := "q", status := .SchemaSelected } "db"
      { sql := "SELECT name FROM singer WHERE age > 200", reasoning := "r", confidence := 80 }
      ["name"] [] 0).row_count = 0 := by
  exact ⟨rfl, rfl, rfl⟩

/-- C7 (amended): in `parse_sql_generation` a no-error execution with zero rows is
emitted as `EmptyResult` with empty `result_rows` and `row_count = 0`, and `EmptyResult`
is terminal — `sql_reviewer` terminates on it (no retry) and `handle_execution_issue`
yields an output; but in `sql_generation` the same zero-row outcome is emitted as
`Success` with empty `result_rows` and `row_count = 0`. -/
theorem c7_empty_result (parsed : SQLGenerationResponse) (schemaDb : String)
    (cols : List String) (t : Rat) (m : WorkflowMessage) (ret : Bool)
    (hm : m.status = .EmptyResult) :
    parseSqlGenerationOkResult parsed schemaDb cols [] t =
      { status := .EmptyResult, sql := parsed.sql, database := schemaDb,
        result_rows := some [], execution_time_ms := t, row_count := 0 }
  ∧ sql_reviewer m = .output (terminate_with_error m "EmptyResult")
  ∧ (∃ out, handle_execution_issue m ret = .output out)
  ∧ (sqlGenerationOkMessage m schemaDb parsed cols [] t).status = .Success
  ∧ (sqlGenerationOkMessage m schemaDb parsed cols [] t).result_rows = some []
  ∧ (sqlGenerationOkMessage m schemaDb parsed cols [] t).row_count = 0 := by
  refine ⟨by simp [parseSqlGenerationOkResult, rowsToDicts], ?_, ⟨_, rfl⟩, rfl, ?_, ?_⟩
  · simp [sql_reviewer, hm, Status.pyString]
  · simp [sqlGenerationOkMessage, rowsToDicts]
  · simp [sqlGenerationOkMessage, rowsToDicts]

/-- C7 witness: zero rows at a concrete input. -/
theorem c7_witness :
    parseSqlGenerationOkResult
      { sql := "SELECT name FROM singer WHERE age > 200", reasoning := "r", confidence := 80 }
      "concert_singer" ["name"] [] 12 =
      { status := .EmptyResult, sql := "SELECT name FROM singer WHERE age > 200",
        database := "concert_singer", result_rows := some [], execution_time_ms := 12,
        row_count := 0 }
  ∧ sql_reviewer { question := "q", status := .EmptyResult } =
      .output (terminate_with_error { question := "q", status := .EmptyResult }
        "EmptyResult") := by
  have h := c7_empty_result
    { sql := "SELECT name FROM singer WHERE age > 200", reasoning := "r", confidence := 80 }
    "concert_singer" ["name"] 12 { question := "q", status := .EmptyResult } false rfl
  exact ⟨h.1, h.2.1⟩

/-- C8 counterexample: with a pre-selected database and pre-selected tables, the
message-based Schema Understanding step (`schema_selection.py`) still reaches the
`agent.run` LLM call — its body is straight-line to that call, with no bypass branch —
contradicting the claim's "performs no LLM call at all". -/
theorem c8_counterexample :
    (schema_understanding_pre_llm
      { question := "How many singers do we have?", database := "concert_singer",
        status := .Init, selected_tables := some ["singer"] }
      [("concert_singer", ["singer", "concert", "stadium"])]).llmCalled = true
  ∧ (schema_understanding_pre_llm
      { question := "How many singers do we have?", database := "concert_singer",
        status := .Init, selected_tables := some ["singer"] }
      [("concert_singer", ["singer", "concert", "stadium"])]).promptView =
      [("concert_singer", ["singer", "concert", "stadium"])] := by
  exact ⟨rfl, by decide⟩

/-- C8 (amended): a pre-selected database that exists in the catalog only narrows the
prompt's catalog view to that single database with its table-name list (pre-selected
tables become prompt hints); the LLM is still invoked, and the emitted `SchemaSelected`
message carries whatever database and tables the LLM response names, with no
`confidence` field set (not the pre-selected values with confidence 100). -/
theorem c8_preselected_schema (msg : WorkflowMessage) (cat : MSchemaCatalog)
    (tbls : List String) (parsed : SchemaMappingResponse) (sid : String)
    (hdb : msg.database ≠ "") (hlook : cat.lookup msg.database = some tbls)
    (hparsed : parsed.database ≠ "") :
    schema_understanding_pre_llm msg cat =
      { llmCalled := true, promptView := [(msg.database, tbls)] }
  ∧ schema_understanding_emit msg parsed sid = .ok
      { question := msg.question, database := parsed.database, status := .SchemaSelected,
        retry_context := msg.retry_context, selected_tables := some parsed.tables,
        schema_id := some sid, reasoning := some parsed.reasoning } := by
  constructor
  · simp [schema_understanding_pre_llm, hdb, hlook]
  · simp [schema_understanding_emit, hparsed]

/-- C8 witness: the narrowing and the LLM-determined emission at a concrete input. -/
theorem c8_witness :
    schema_understanding_pre_llm
      { question := "How many singers do we have?", database := "concert_singer",
        status := .Init, selected_tables := some ["singer"] }
      [("concert_singer", ["singer", "concert", "stadium"]), ("pets_1", ["pets"])] =
      { llmCalled := true, promptView := [("concert_singer", ["singer", "concert", "stadium"])] }
  ∧ schema_understanding_emit
      { question := "How many singers do we have?", database := "concert_singer",
        status := .Init, selected_tables := some ["singer"] }
      { database := "orchestra", tables := ["show"], reasoning := "LLM picked other" }
      "sid0" = .ok
      { question := "How many singers do we have?", database := "orchestra",
        status := .SchemaSelected, retry_context := {}, selected_tables := some ["show"],
        schema_id := some "sid0", reasoning := some "LLM picked other" } := by
  exact c8_preselected_schema
    { question := "How many singers do we have?", database := "concert_singer",
      status := .Init, selected_tables := some ["singer"] }
    [("concert_singer", ["singer", "concert", "stadium"]), ("pets_1", ["pets"])]
    ["singer", "concert", "stadium"]
    { database := "orchestra", tables := ["show"], reasoning := "LLM picked other" }
    "sid0" (by decide) (by decide) (by decide)

/-- C1 counterexample: a `SemanticError` outcome with the semantic budget untouched is
routed by `sql_reviewer` with the explicit target `sql_generation` — directly back to
SQL generation, not to Schema Understanding — contradicting the claim's "never directly
back to SQL generation". -/
theorem c1_counterexample :
    sql_reviewer
      { question := "q", database := "concert_singer", sql := some "SELECT x FROM singer",
        status := .SemanticError, error_message := some "no such column: x" } =
    .send
      { question := "q", database := "concert_singer", sql := some "SELECT x FROM singer",
        status := .SemanticError, error_message := some "no such column: x",
        retry_context := { semantic_retry_count := 1 } } (some "sql_generation") := by
  rfl

/-- C1 (amended): whenever a SQL-generation outcome has status `SemanticError` and the
semantic retry budget is not exhausted, the semantic counter is incremented — but the
two orchestration variants route differently: `handle_semantic_error` re-emits the retry
message with no explicit target (its documented workflow edge loops to Schema
Understanding), while the reflection reviewer `sql_reviewer` sends the incremented
message with explicit target `sql_generation`, directly back to SQL generation. -/
theorem c1_semantic_retry_routing (m : WorkflowMessage)
    (hs : m.status = .SemanticError)
    (hbudget : m.retry_context.canRetrySemantic = true)
    (hrev : m.retry_context.semantic_retry_count < REVIEWER_MAX_SEMANTIC_RETRIES) :
    handle_semantic_error m = .send
      { question := m.question, database := m.database, sql := m.sql,
        status := .SemanticError, error_message := m.error_message,
        retry_context := m.retry_context.incrementSemantic,
        selected_tables := m.selected_tables, schema_id := m.schema_id } none
  ∧ sql_reviewer m = .send { m with retry_context := m.retry_context.incrementSemantic }
      (some "sql_generation") := by
  constructor
  · simp [handle_semantic_error, hs, hbudget]
  · simp [sql_reviewer, hs, Nat.not_le.mpr hrev]

/-- C1 witness: the two routings at a concrete message with an unexhausted budget. -/
theorem c1_witness :
    handle_semantic_error
      { question := "q", database := "concert_singer", sql := some "SELECT x FROM singer",
        status := .SemanticError, error_message := some "no such column: x",
        schema_id := some "sid0" } = .send
      { question := "q", database := "concert_singer", sql := some "SELECT x FROM singer",
        status := .SemanticError, error_message := some "no such column: x",
        retry_context := { semantic_retry_count := 1 }, schema_id := some "sid0" } none
  ∧ sql_reviewer
      { question := "q", database := "concert_singer", sql := some "SELECT x FROM singer",
        status := .SemanticError, error_message := some "no such column: x",
        schema_id := some "sid0" } = .send
      { question := "q", database := "concert_singer", sql := some "SELECT x FROM singer",
        status := .SemanticError, error_message := some "no such column: x",
        retry_context := { semantic_retry_count := 1 }, schema_id := some "sid0" }
      (some "sql_generation") := by
  exact c1_semantic_retry_routing
    { question := "q", database := "concert_singer", sql := some "SELECT x FROM singer",
      status := .SemanticError, error_message := some "no such column: x",
      schema_id := some "sid0" } rfl (by decide) (by decide)

/-- On a `SyntaxError` message, `handle_syntax_error` terminates with the
`SQL Syntax Error` output exactly when the budget is exhausted, and otherwise sends the
retry message with the incremented counter: the two branches of `runSyntaxLoop` are the
two branches of the embedded handler. -/
theorem handle_syntax_error_cases (m : WorkflowMessage) (hs : m.status = .SyntaxError) :
    handle_syntax_error m =
      if m.retry_context.canRetrySyntax then
        .send
          { question := m.question, database := m.database, sql := m.sql,
            status := .SyntaxError, error_message := m.error_message,
            retry_context := m.retry_context.incrementSyntax,
            selected_tables := m.selected_tables, schema_id := m.schema_id } none
      else .output (create_error_output m "SQL Syntax Error") := by
  cases hc : m.retry_context.canRetrySyntax <;> simp [handle_syntax_error, hs, hc]

/-- Unrolling of `runSyntaxLoop`: with `k` retries left in the budget, the loop makes
exactly `k + 1` further generation attempts and terminates with the error output built
from the final attempt's message, whose counter sits at the maximum. -/
theorem runSyntaxLoop_spec (attemptErr attemptSql : Nat → String) (question schemaDb : String)
    (tables : Option (List String)) (sid : Option String) (conf : Rat) (reasoning : String)
    (t : Rat) (k : Nat) :
    ∀ (rc : RetryContext) (n : Nat), rc.syntax_retry_count + k = rc.max_syntax_retries →
      runSyntaxLoop attemptErr attemptSql question schemaDb tables sid conf reasoning t rc n =
        (n + k + 1,
          create_error_output
            (syntaxAttemptMessage attemptErr attemptSql question schemaDb tables sid conf
              reasoning t { rc with syntax_retry_count := rc.max_syntax_retries } (n + k))
            "SQL Syntax Error") := by
  induction k with
  | zero =>
    intro rc n h
    rw [runSyntaxLoop]
    have hc : rc.canRetrySyntax = false := by
      simp only [RetryContext.canRetrySyntax, decide_eq_false_iff_not]
      omega
    have hrc : { rc with syntax_retry_count := rc.max_syntax_retries } = rc := by
      cases rc
      simp_all
    simp [hc, hrc]
  | succ k ih =>
    intro rc n h
    rw [runSyntaxLoop]
    have hc : rc.canRetrySyntax = true := by
      simp only [RetryContext.canRetrySyntax, decide_eq_true_eq]
      omega
    have hstep := ih rc.incrementSyntax (n + 1) (by
      simp only [RetryContext.incrementSyntax]
      omega)
    simp only [hc, if_true]
    rw [hstep]
    have hn : n + 1 + k = n + (k + 1) := by omega
    have hrc : { rc.incrementSyntax with syntax_retry_count :=
        rc.incrementSyntax.max_syntax_retries } =
        { rc with syntax_retry_count := rc.max_syntax_retries } := by
      cases rc
      simp [RetryContext.incrementSyntax]
    rw [hn, hrc]

/-- C2: for every run in which each SQL-generation attempt ends in `SyntaxError`
(attempt outcomes given by the arbitrary `attemptErr`/`attemptSql` streams), a workflow
started with a fresh retry context whose syntax budget is `maxSyn` terminates with an
error output after exactly `maxSyn + 1` total SQL-generation attempts (3 with the
default maximum of 2), and the final output's `execution_result` is the error dict with
`error_type = "SQL Syntax Error"`, `syntax_retry_count = maxSyn` and an untouched
semantic counter. -/
theorem c2_syntax_retry_bound (attemptErr attemptSql : Nat → String)
    (question schemaDb : String) (tables : Option (List String)) (sid : Option String)
    (conf : Rat) (reasoning : String) (t : Rat) (maxSyn : Nat) :
    (runSyntaxLoop attemptErr attemptSql question schemaDb tables sid conf reasoning t
      { syntax_retry_count := 0, max_syntax_retries := maxSyn } 0).1 = maxSyn + 1
  ∧ (runSyntaxLoop attemptErr attemptSql question schemaDb tables sid conf reasoning t
      { syntax_retry_count := 0, max_syntax_retries := maxSyn } 0).2.execution_result =
      some (.errorDict (some (attemptErr maxSyn)) "SQL Syntax Error" maxSyn 0) := by
  have h := runSyntaxLoop_spec attemptErr attemptSql question schemaDb tables sid conf
    reasoning t maxSyn { syntax_retry_count := 0, max_syntax_retries := maxSyn } 0 (by simp)
  rw [h]
  refine ⟨by simp, ?_⟩
  simp only [syntaxAttemptMessage, sqlGenerationExcMessage, create_error_output]
  cases hk : isSyntaxKeywordMsg (attemptErr (0 + maxSyn)) <;> simp [hk]

/-- C9: every `WorkflowMessage` any executor produces satisfies the status-field
invariant — `error_message` is non-null exactly when the status is `SyntaxError`,
`SemanticError` or `Timeout`, and `result_rows` is null unless the status is `Success`
or `EmptyResult` — proved by induction over the closure `Produced` of all construction
sites (initialization, schema selection, the five `sql_generation` outcomes, and the
forwarding of the two error handlers and the reviewer). -/
theorem c9_message_invariant (m : WorkflowMessage) (hm : Produced m) :
    messageInvariant m := by
  induction hm with
  | init input_data =>
    simp [initialize_context_message, messageInvariant]
  | schemaSelected m parsed sid out h =>
    unfold schema_understanding_emit at h
    split at h
    · exact absurd h (by simp)
    · simp only [Except.ok.injEq] at h
      subst h
      simp [messageInvariant]
  | sqlGenParseFailure m excText =>
    simp [sqlGenerationParseFailureMessage, messageInvariant]
  | sqlGenLowConfidence m parsed =>
    simp [sqlGenerationLowConfidenceMessage, messageInvariant]
  | sqlGenOk m schemaDb parsed cols rows t =>
    simp [sqlGenerationOkMessage, messageInvariant]
  | sqlGenExc m schemaDb parsed t e =>
    cases e <;> simp [sqlGenerationExcMessage, messageInvariant]
    case operationalError msg =>
      cases hk : isSyntaxKeywordMsg msg <;> simp [hk, messageInvariant]
  | syntaxRetry m out tgt hm h ih =>
    unfold handle_syntax_error at h
    split at h
    · exact absurd h (by simp)
    · rename_i hs
      split at h
      · exact absurd h (by simp)
      · simp only [ExecutorAction.send.injEq] at h
        obtain ⟨hout, -⟩ := h
        subst hout
        have hstat : m.status = .SyntaxError := by
          by_contra hne
          exact hs hne
        have herr : m.error_message ≠ none := ih.1.mpr (Or.inl hstat)
        simpa [messageInvariant] using herr
  | semanticRetry m out tgt hm h ih =>
    unfold handle_semantic_error at h
    split at h
    · exact absurd h (by simp)
    · rename_i hs
      split at h
      · exact absurd h (by simp)
      · simp only [ExecutorAction.send.injEq] at h
        obtain ⟨hout, -⟩ := h
        subst hout
        have hstat : m.status = .SemanticError := by
          by_contra hne
          exact hs hne
        have herr : m.error_message ≠ none := ih.1.mpr (Or.inr (Or.inl hstat))
        simpa [messageInvariant] using herr
  | reviewerSend m out tgt hm h ih =>
    unfold sql_reviewer at h
    split at h
    · simp only [ExecutorAction.send.injEq] at h
      obtain ⟨hout, -⟩ := h
      subst hout
      exact ih
    · split at h
      · split at h
        · exact absurd h (by simp)
        · simp only [ExecutorAction.send.injEq] at h
          obtain ⟨hout, -⟩ := h
          subst hout
          simpa [messageInvariant] using ih
      · split at h
        · split at h
          · exact absurd h (by simp)
          · simp only [ExecutorAction.send.injEq] at h
            obtain ⟨hout, -⟩ := h
            subst hout
            simpa [messageInvariant] using ih
        · exact absurd h (by simp)

/-- C9 witness: the invariant of a concretely produced message (the initial message of
`initialize_context`). -/
theorem c9_witness :
    messageInvariant (initialize_context_message
      { question := "How many singers do we have?",
        selected_database := some "concert_singer", selected_tables := some ["singer"] }) :=
  c9_message_invariant _ (Produced.init
    { question := "How many singers do we have?",
      selected_database := some "concert_singer", selected_tables := some ["singer"] })

end Nl2Sql
